import Mathlib

/-!
Shallow embedding of the PokemonExplorer catalog core:
the Zustand store (`pokemonStore`), the list-fetch hook (`useFetchItems`),
the detail-fetch hook (`usePokemonDetail`), the API error classifier
(`getErrorMessage`), and the screen's `handleEndReached` callback.

Asynchronous operations are modelled in two phases: a `...Start` function
performing everything up to the `await` of the network call (returning the
issued request, if any), and a `...Settle` function performing the
success/catch branch plus the `finally` block.  The one-shot `...Data`
functions compose the two, returning the number of network calls issued.
-/

set_option autoImplicit false

/-- UI-facing catalog entry (`Pokemon` in `src/types`). -/
structure Pokemon where
  id : Nat
  name : String
  url : String
  imageUrl : String
  types : List String
deriving Repr, DecidableEq

/-- Detail record (`PokemonDetail` in `src/types`), kept abstract in the
fields the claims never inspect. -/
structure PokemonDetail where
  id : Nat
  name : String
  height : Nat
  weight : Nat
deriving Repr, DecidableEq

/-- Pagination cursor (`PaginationConfig` in `src/types`). -/
structure PaginationConfig where
  limit : Nat
  offset : Nat
deriving Repr, DecidableEq

/-- `INITIAL_PAGINATION` from `pokemonStore`. -/
def INITIAL_PAGINATION : PaginationConfig := ⟨20, 0⟩

/-- ASCII model of JavaScript `String.prototype.toLowerCase`. -/
def lowerStr (s : String) : String := String.mk (s.data.map Char.toLower)

/-- `leadsWithChars s sub` : `sub` occurs at the start of `s`. -/
def leadsWithChars : List Char → List Char → Bool
  | _, [] => true
  | [], _ :: _ => false
  | a :: as, b :: bs => a == b && leadsWithChars as bs

/-- `hasInfixChars s sub` : `sub` occurs contiguously somewhere in `s`. -/
def hasInfixChars : List Char → List Char → Bool
  | [], sub => sub.isEmpty
  | a :: rest, sub => leadsWithChars (a :: rest) sub || hasInfixChars rest sub

/-- Model of JavaScript `s.includes(sub)` (substring containment). -/
def strIncludes (s sub : String) : Bool := hasInfixChars s.data sub.data

/-- The filtering expression shared by `setPokemonList` and `setSearchQuery`:
lowercase the query; a falsy (empty) query keeps the whole list, otherwise
keep entries whose lowercased name includes the query. -/
def filterByQuery (list : List Pokemon) (searchQuery : String) : List Pokemon :=
  let query := lowerStr searchQuery
  if query = "" then list
  else list.filter (fun p => strIncludes (lowerStr p.name) query)

/-- The full Zustand store state (`PokemonStore` data fields). -/
structure StoreState where
  pokemonList : List Pokemon
  filteredList : List Pokemon
  searchQuery : String
  isLoading : Bool
  isRefreshing : Bool
  error : Option String
  hasMore : Bool
  pagination : PaginationConfig
  selectedPokemon : Option PokemonDetail
  detailLoading : Bool
  detailError : Option String
deriving Repr, DecidableEq

/-- The store's creation-time state. -/
def initialStoreState : StoreState where
  pokemonList := []
  filteredList := []
  searchQuery := ""
  isLoading := false
  isRefreshing := false
  error := none
  hasMore := true
  pagination := INITIAL_PAGINATION
  selectedPokemon := none
  detailLoading := false
  detailError := none

/-- `setPokemonList(pokemon, append)` action. -/
def setPokemonList (s : StoreState) (pokemon : List Pokemon) (append : Bool) :
    StoreState :=
  let newList := if append then s.pokemonList ++ pokemon else pokemon
  { s with pokemonList := newList
           filteredList := filterByQuery newList s.searchQuery }

/-- `setLoading` action. -/
def setLoading (s : StoreState) (b : Bool) : StoreState := { s with isLoading := b }

/-- `setRefreshing` action. -/
def setRefreshing (s : StoreState) (b : Bool) : StoreState := { s with isRefreshing := b }

/-- `setError` action. -/
def setError (s : StoreState) (e : Option String) : StoreState := { s with error := e }

/-- `setHasMore` action. -/
def setHasMore (s : StoreState) (b : Bool) : StoreState := { s with hasMore := b }

/-- `setPagination` action. -/
def setPagination (s : StoreState) (p : PaginationConfig) : StoreState :=
  { s with pagination := p }

/-- `setSearchQuery(query)` action: stores the raw query and recomputes the
filtered view from the accumulated list. -/
def setSearchQuery (s : StoreState) (q : String) : StoreState :=
  { s with searchQuery := q, filteredList := filterByQuery s.pokemonList q }

/-- `resetList()` action: restores all list-screen fields to their initial
values (detail fields are untouched; Zustand `set` merges). -/
def resetList (s : StoreState) : StoreState :=
  { s with pokemonList := []
           filteredList := []
           searchQuery := ""
           isLoading := false
           isRefreshing := false
           error := none
           hasMore := true
           pagination := INITIAL_PAGINATION }

/-- `setSelectedPokemon` action. -/
def setSelectedPokemon (s : StoreState) (d : Option PokemonDetail) : StoreState :=
  { s with selectedPokemon := d }

/-- `setDetailLoading` action. -/
def setDetailLoading (s : StoreState) (b : Bool) : StoreState :=
  { s with detailLoading := b }

/-- `setDetailError` action. -/
def setDetailError (s : StoreState) (e : Option String) : StoreState :=
  { s with detailError := e }

/-- `resetDetail()` action. -/
def resetDetail (s : StoreState) : StoreState :=
  { s with selectedPokemon := none, detailLoading := false, detailError := none }

/-- One store mutation, covering every action exposed by `pokemonStore`. -/
inductive StoreOp where
  | setList (pokemon : List Pokemon) (append : Bool)
  | setQuery (q : String)
  | resetL
  | loading (b : Bool)
  | refreshing (b : Bool)
  | errorOp (e : Option String)
  | hasMoreOp (b : Bool)
  | paginationOp (p : PaginationConfig)
  | selectedOp (d : Option PokemonDetail)
  | detailLoadingOp (b : Bool)
  | detailErrorOp (e : Option String)
  | resetD
deriving Repr

/-- Dispatch one store action. -/
def applyStoreOp (s : StoreState) : StoreOp → StoreState
  | .setList pokemon append => setPokemonList s pokemon append
  | .setQuery q => setSearchQuery s q
  | .resetL => resetList s
  | .loading b => setLoading s b
  | .refreshing b => setRefreshing s b
  | .errorOp e => setError s e
  | .hasMoreOp b => setHasMore s b
  | .paginationOp p => setPagination s p
  | .selectedOp d => setSelectedPokemon s d
  | .detailLoadingOp b => setDetailLoading s b
  | .detailErrorOp e => setDetailError s e
  | .resetD => resetDetail s

/-- Run a sequence of store actions from the creation-time state. -/
def runStoreOps (ops : List StoreOp) : StoreState :=
  ops.foldl applyStoreOp initialStoreState

/-- A failure as inspected by `getErrorMessage`: an Axios error carries an
optional transport code and, when a response arrived, its HTTP status; a
plain `Error` carries its message; anything else is unknown. -/
inductive ApiError where
  | axios (code : Option String) (responseStatus : Option Nat)
  | jsError (message : String)
  | unknown
deriving Repr, DecidableEq

/-- `getErrorMessage` from `pokemonApi`: classify a failure into one
human-readable string. -/
def getErrorMessage : ApiError → String
  | .axios code responseStatus =>
    if code == some "ECONNABORTED" then
      "Request timed out. Please check your connection and try again."
    else
      match responseStatus with
      | none => "Network error. Please check your internet connection."
      | some 404 => "Pokemon not found."
      | some 429 => "Too many requests. Please wait a moment and try again."
      | some 500 => "Server error. Please try again later."
      | some 502 => "Server error. Please try again later."
      | some 503 => "Server error. Please try again later."
      | some _ => "An unexpected error occurred. Please try again."
  | .jsError message => message
  | .unknown => "An unknown error occurred. Please try again."

/-- A successful `fetchPokemonList` response after normalization. -/
structure Page where
  pokemon : List Pokemon
  hasMore : Bool
deriving Repr, DecidableEq

/-- Outcome of one `fetchPokemonList` round-trip. -/
abbrev FetchResult := Except ApiError Page

/-- State visible to `useFetchItems`: the store plus the two refs
`isFetchingRef` and `isLoadingMoreRef`. -/
structure HookState where
  store : StoreState
  isFetching : Bool
  isLoadingMore : Bool
deriving Repr, DecidableEq

/-- Hook state at mount over the freshly created store. -/
def initialHookState : HookState where
  store := initialStoreState
  isFetching := false
  isLoadingMore := false

/-- `loadInitialData` up to its `await`: guard on `isFetchingRef`, then set
the ref, `setLoading(true)`, `setError(null)` and issue the request at the
fixed cursor `{limit: 20, offset: 0}`.  `none` means no request was made. -/
def loadInitialStart (s : HookState) : HookState × Option PaginationConfig :=
  if s.isFetching then (s, none)
  else
    ({ s with isFetching := true
              store := setError (setLoading s.store true) none },
      some ⟨20, 0⟩)

/-- `loadInitialData` after its `await`: the success branch replaces the
list, records `hasMore`, sets the cursor to `{20, 20}`; the catch branch
records the classified message; the `finally` clears loading and the ref. -/
def loadInitialSettle (s : HookState) (r : FetchResult) : HookState :=
  match r with
  | .ok page =>
    let st := setPokemonList s.store page.pokemon false
    let st := setHasMore st page.hasMore
    let st := setPagination st ⟨20, 20⟩
    let st := setLoading st false
    { s with store := st, isFetching := false }
  | .error e =>
    let st := setError s.store (some (getErrorMessage e))
    let st := setLoading st false
    { s with store := st, isFetching := false }

/-- One complete `loadInitialData()` call whose (single) fetch, if issued,
resolves to `r`; also returns the number of network calls issued. -/
def loadInitialData (s : HookState) (r : FetchResult) : HookState × Nat :=
  match loadInitialStart s with
  | (s1, none) => (s1, 0)
  | (s1, some _) => (loadInitialSettle s1 r, 1)

/-- `loadMoreData` up to its `await`: guard on
`isLoadingMoreRef || !hasMore || isLoading || isRefreshing`, then set the
ref and issue the request at the current cursor. -/
def loadMoreStart (s : HookState) : HookState × Option PaginationConfig :=
  if s.isLoadingMore || !s.store.hasMore || s.store.isLoading ||
      s.store.isRefreshing then
    (s, none)
  else
    ({ s with isLoadingMore := true }, some s.store.pagination)

/-- `loadMoreData` after its `await`, with `pag` the cursor captured at call
time: the success branch appends the page, records `hasMore` and advances
the offset by the limit; the catch branch only logs; the `finally` clears
the ref in both branches. -/
def loadMoreSettle (pag : PaginationConfig) (s : HookState) (r : FetchResult) :
    HookState :=
  match r with
  | .ok page =>
    let st := setPokemonList s.store page.pokemon true
    let st := setHasMore st page.hasMore
    let st := setPagination st ⟨pag.limit, pag.offset + pag.limit⟩
    { s with store := st, isLoadingMore := false }
  | .error _ =>
    { s with isLoadingMore := false }

/-- One complete `loadMoreData()` call whose fetch, if issued, resolves to
`r`; also returns the number of network calls issued. -/
def loadMoreData (s : HookState) (r : FetchResult) : HookState × Nat :=
  match loadMoreStart s with
  | (s1, none) => (s1, 0)
  | (s1, some pag) => (loadMoreSettle pag s1 r, 1)

/-- `refreshData` up to its `await`: guard on `isFetchingRef || isLoading`,
then set the ref, `setRefreshing(true)`, `setError(null)` and issue the
request at the fixed cursor `{limit: 20, offset: 0}`. -/
def refreshStart (s : HookState) : HookState × Option PaginationConfig :=
  if s.isFetching || s.store.isLoading then (s, none)
  else
    ({ s with isFetching := true
              store := setError (setRefreshing s.store true) none },
      some ⟨20, 0⟩)

/-- `refreshData` after its `await`: only the success branch calls
`resetList()` and replaces the list with the fresh page; the catch branch
records the classified message; the `finally` clears refreshing and the
ref. -/
def refreshSettle (s : HookState) (r : FetchResult) : HookState :=
  match r with
  | .ok page =>
    let st := resetList s.store
    let st := setPokemonList st page.pokemon false
    let st := setHasMore st page.hasMore
    let st := setPagination st ⟨20, 20⟩
    let st := setRefreshing st false
    { s with store := st, isFetching := false }
  | .error e =>
    let st := setError s.store (some (getErrorMessage e))
    let st := setRefreshing st false
    { s with store := st, isFetching := false }

/-- One complete `refreshData()` call whose fetch, if issued, resolves to
`r`; also returns the number of network calls issued. -/
def refreshData (s : HookState) (r : FetchResult) : HookState × Nat :=
  match refreshStart s with
  | (s1, none) => (s1, 0)
  | (s1, some _) => (refreshSettle s1 r, 1)

/-- `fetchDetail(idOrName)` from `usePokemonDetail` (no guard, detail store
fields only): set loading, clear the error, then store the record on
success or the classified message on failure, and clear loading. -/
def fetchDetail (s : StoreState) (r : Except ApiError PokemonDetail) :
    StoreState :=
  let st := setDetailError (setDetailLoading s true) none
  match r with
  | .ok d => setDetailLoading (setSelectedPokemon st (some d)) false
  | .error e => setDetailLoading (setDetailError st (some (getErrorMessage e))) false

/-- `handleEndReached` from `PokemonListScreen`: call `loadMoreData()` only
when not loading, not refreshing, more pages exist, and the search query is
falsy (empty). -/
def handleEndReached (s : HookState) (r : FetchResult) : HookState × Nat :=
  if !s.store.isLoading && !s.store.isRefreshing && s.store.hasMore &&
      s.store.searchQuery.isEmpty then
    loadMoreData s r
  else
    (s, 0)

/-- The filtered view as the specification words it: the entries of the
accumulated list whose lowercased name contains the lowercased search term,
the full list when the term is empty. -/
def specFilteredView (l : List Pokemon) (term : String) : List Pokemon :=
  if term = "" then l
  else l.filter (fun p => strIncludes (lowerStr p.name) (lowerStr term))

theorem lowerStr_eq_empty_iff (q : String) : lowerStr q = "" ↔ q = "" := by
  cases q with
  | mk data => simp [lowerStr, String.ext_iff]

theorem filterByQuery_eq_specFilteredView (l : List Pokemon) (q : String) :
    filterByQuery l q = specFilteredView l q := by
  unfold filterByQuery specFilteredView
  by_cases h : q = ""
  · subst h
    simp [lowerStr]
  · have h' : lowerStr q ≠ "" := fun hc => h ((lowerStr_eq_empty_iff q).mp hc)
    simp [h, h']

/-- The store invariant relating the cached filtered view to the code's own
filtering expression. -/
def StoreInv (s : StoreState) : Prop :=
  s.filteredList = filterByQuery s.pokemonList s.searchQuery

theorem filterByQuery_nil (q : String) : filterByQuery [] q = [] := by
  unfold filterByQuery
  by_cases h : lowerStr q = "" <;> simp [h]

theorem storeInv_initial : StoreInv initialStoreState := by
  simp [StoreInv, initialStoreState, filterByQuery_nil]

theorem storeInv_apply (s : StoreState) (op : StoreOp) (h : StoreInv s) :
    StoreInv (applyStoreOp s op) := by
  cases op <;>
    simp_all [StoreInv, applyStoreOp, setPokemonList, setSearchQuery, resetList,
      setLoading, setRefreshing, setError, setHasMore, setPagination,
      setSelectedPokemon, setDetailLoading, setDetailError, resetDetail,
      filterByQuery_nil]

theorem storeInv_fold (ops : List StoreOp) (s : StoreState) (h : StoreInv s) :
    StoreInv (ops.foldl applyStoreOp s) := by
  induction ops generalizing s with
  | nil => exact h
  | cons op rest ih => exact ih (applyStoreOp s op) (storeInv_apply s op h)

/-- C1: at every state of the catalog store reachable by any sequence of
store actions (in particular `setPokemonList` with or without append,
`setSearchQuery`, and `resetList`), the cached filtered view equals exactly
the entries of the accumulated list whose lowercased name contains the
lowercased search term — the full list when the term is empty — in the
same relative order (it is literally a `List.filter` of the accumulated
list). -/
theorem c1_filtered_view_invariant (ops : List StoreOp) :
    (runStoreOps ops).filteredList =
      specFilteredView (runStoreOps ops).pokemonList (runStoreOps ops).searchQuery := by
  have h := storeInv_fold ops initialStoreState storeInv_initial
  rw [runStoreOps]
  rw [StoreInv] at h
  rw [h, filterByQuery_eq_specFilteredView]

/-- C2: when the page fetch of `refreshData` fails, the accumulated list
and the filtered view are exactly what they were before the refresh — the
clear-and-replace (`resetList` + `setPokemonList`) sits only in the success
branch, after the fetch has resolved.  (When the guard rejects the call the
state is unchanged altogether.) -/
theorem c2_failed_refresh_preserves_list (s : HookState) (e : ApiError) :
    (refreshData s (.error e)).1.store.pokemonList = s.store.pokemonList ∧
    (refreshData s (.error e)).1.store.filteredList = s.store.filteredList := by
  unfold refreshData refreshStart
  by_cases h : (s.isFetching || s.store.isLoading) = true <;>
    simp [h, refreshSettle, setError, setRefreshing, setLoading]

/-- `chainHasMore b ps` : starting from a state whose `hasMore` flag is
`b`, every page in `ps` is actually fetched (each fetch requires the flag
left by its predecessor to be `true`; the last page's own flag is free). -/
def chainHasMore : Bool → List Page → Bool
  | _, [] => true
  | b, p :: rest => b && chainHasMore p.hasMore rest

/-- One `loadInitialData` at mount followed by one `loadMoreData` per page
of `ps`, every fetch succeeding. -/
def runPages (p0 : Page) (ps : List Page) : HookState :=
  ps.foldl (fun s p => (loadMoreData s (.ok p)).1)
    (loadInitialData initialHookState (.ok p0)).1

theorem loadMoreData_ok_step (s : HookState) (p : Page)
    (h1 : s.isLoadingMore = false) (h2 : s.store.isLoading = false)
    (h3 : s.store.isRefreshing = false) (h4 : s.store.hasMore = true) :
    (loadMoreData s (.ok p)).1.store.pokemonList = s.store.pokemonList ++ p.pokemon ∧
    (loadMoreData s (.ok p)).1.store.hasMore = p.hasMore ∧
    (loadMoreData s (.ok p)).1.isLoadingMore = false ∧
    (loadMoreData s (.ok p)).1.store.isLoading = false ∧
    (loadMoreData s (.ok p)).1.store.isRefreshing = false := by
  simp [loadMoreData, loadMoreStart, h1, h2, h3, h4, loadMoreSettle,
    setPokemonList, setHasMore, setPagination]

theorem loadInitialData_ok_initial (p : Page) :
    (loadInitialData initialHookState (.ok p)).1.store.pokemonList = p.pokemon ∧
    (loadInitialData initialHookState (.ok p)).1.store.hasMore = p.hasMore ∧
    (loadInitialData initialHookState (.ok p)).1.isLoadingMore = false ∧
    (loadInitialData initialHookState (.ok p)).1.store.isLoading = false ∧
    (loadInitialData initialHookState (.ok p)).1.store.isRefreshing = false := by
  simp [loadInitialData, loadInitialStart, initialHookState, initialStoreState,
    loadInitialSettle, setPokemonList, setHasMore, setPagination, setLoading,
    setError]

theorem loadMore_fold (ps : List Page) (s : HookState)
    (h1 : s.isLoadingMore = false) (h2 : s.store.isLoading = false)
    (h3 : s.store.isRefreshing = false)
    (hc : chainHasMore s.store.hasMore ps = true) :
    (ps.foldl (fun t p => (loadMoreData t (.ok p)).1) s).store.pokemonList =
      s.store.pokemonList ++ (ps.map Page.pokemon).flatten := by
  induction ps generalizing s with
  | nil => simp
  | cons p rest ih =>
    rw [chainHasMore] at hc
    rw [Bool.and_eq_true] at hc
    obtain ⟨hb, hrest⟩ := hc
    have step := loadMoreData_ok_step s p h1 h2 h3 hb
    rw [List.foldl_cons]
    rw [ih (loadMoreData s (.ok p)).1 step.2.2.1 step.2.2.2.1 step.2.2.2.2
      (by rw [step.2.1]; exact hrest)]
    rw [step.1]
    simp [List.append_assoc]

/-- C3: for every run of one successful `loadInitialData` followed by any
number of successful `loadMoreData` calls (each actually fetching, i.e. the
`hasMore` chain holds), the accumulated list is the concatenation of the
returned pages in arrival order, and its length is the sum of the page
lengths — no entry dropped or reordered. -/
theorem c3_pages_concatenate (p0 : Page) (ps : List Page)
    (hc : chainHasMore p0.hasMore ps = true) :
    (runPages p0 ps).store.pokemonList = p0.pokemon ++ (ps.map Page.pokemon).flatten ∧
    (runPages p0 ps).store.pokemonList.length =
      p0.pokemon.length + (ps.map (fun p => p.pokemon.length)).sum := by
  have init := loadInitialData_ok_initial p0
  have hfold := loadMore_fold ps (loadInitialData initialHookState (.ok p0)).1
    init.2.2.1 init.2.2.2.1 init.2.2.2.2 (by rw [init.2.1]; exact hc)
  rw [runPages]
  rw [hfold, init.1]
  refine ⟨rfl, ?_⟩
  simp [List.length_flatten, Function.comp_def]

/-- Concrete first page for the C3 witness. -/
def wPage0 : Page := ⟨[⟨1, "bulbasaur", "", "", []⟩], true⟩

/-- Concrete follow-up pages for the C3 witness. -/
def wPages : List Page := [⟨[⟨2, "ivysaur", "", "", []⟩, ⟨3, "venusaur", "", "", []⟩], false⟩]

theorem c3_pages_concatenate_witness :
    chainHasMore wPage0.hasMore wPages = true ∧
    ((runPages wPage0 wPages).store.pokemonList =
        wPage0.pokemon ++ (wPages.map Page.pokemon).flatten ∧
      (runPages wPage0 wPages).store.pokemonList.length =
        wPage0.pokemon.length + (wPages.map (fun p => p.pokemon.length)).sum) :=
  ⟨by decide, c3_pages_concatenate wPage0 wPages (by decide)⟩

/-- A reachable state with a non-empty search term: a successful initial
load followed by `setSearchQuery "pika"`. -/
def cx4State : HookState :=
  let s1 := (loadInitialData initialHookState (.ok wPage0)).1
  { s1 with store := setSearchQuery s1.store "pika" }

/-- C4 counterexample: with the search term `"pika"` active (and no other
guard tripped), a direct `loadMoreData()` call does issue a fetch-page
request — one network call — and mutates the state; `loadMoreData` never
inspects the search term. -/
theorem c4_counterexample :
    cx4State.store.searchQuery = "pika" ∧
    cx4State.isLoadingMore = false ∧ cx4State.store.isLoading = false ∧
    cx4State.store.isRefreshing = false ∧
    (loadMoreData cx4State (.ok wPage0)).2 = 1 ∧
    (loadMoreData cx4State (.ok wPage0)).1 ≠ cx4State := by decide

/-- C4 amended: the search-term guard lives in the screen's
`handleEndReached` callback, not in `loadMoreData`; a `loadMore` triggered
through end-reached while a non-empty search term is active issues zero
network calls and leaves the state unchanged. -/
theorem c4_amended_endreached_no_call (s : HookState) (r : FetchResult)
    (h : s.store.searchQuery ≠ "") :
    handleEndReached s r = (s, 0) := by
  have hne : ¬ s.store.searchQuery.isEmpty :=
    fun hb => h ((String.isEmpty_iff _).mp hb)
  unfold handleEndReached
  simp [hne]

theorem c4_amended_endreached_no_call_witness :
    cx4State.store.searchQuery ≠ "" ∧
    handleEndReached cx4State (.ok wPage0) = (cx4State, 0) :=
  ⟨by decide, c4_amended_endreached_no_call cx4State (.ok wPage0) (by decide)⟩

/-- C5: from a state where a `loadMoreData()` proceeds (guard clear, more
pages, no initial/refresh load), the first invocation issues exactly one
fetch-page request; a second invocation made while the first is still
pending issues none and changes nothing; and when the pending request
settles — succeeding or failing — the in-flight guard is cleared. -/
theorem c5_single_flight_loadmore (s : HookState) (r : FetchResult)
    (h1 : s.isLoadingMore = false) (h2 : s.store.hasMore = true)
    (h3 : s.store.isLoading = false) (h4 : s.store.isRefreshing = false) :
    (loadMoreStart s).2 = some s.store.pagination ∧
    loadMoreStart (loadMoreStart s).1 = ((loadMoreStart s).1, none) ∧
    (loadMoreSettle s.store.pagination (loadMoreStart (loadMoreStart s).1).1
        r).isLoadingMore = false := by
  unfold loadMoreStart
  simp [h1, h2, h3, h4]
  cases r <;> simp [loadMoreSettle]

/-- The hook state right after a successful initial load. -/
def c5State : HookState := (loadInitialData initialHookState (.ok wPage0)).1

theorem c5_single_flight_loadmore_witness :
    c5State.isLoadingMore = false ∧ c5State.store.hasMore = true ∧
    c5State.store.isLoading = false ∧ c5State.store.isRefreshing = false ∧
    ((loadMoreStart c5State).2 = some c5State.store.pagination ∧
      loadMoreStart (loadMoreStart c5State).1 = ((loadMoreStart c5State).1, none) ∧
      (loadMoreSettle c5State.store.pagination
          (loadMoreStart (loadMoreStart c5State).1).1
          (.error .unknown)).isLoadingMore = false) :=
  ⟨by decide, by decide, by decide, by decide,
    c5_single_flight_loadmore c5State (.error .unknown)
      (by decide) (by decide) (by decide) (by decide)⟩

/-- The hook state while an incremental page load is pending: its guard
`isLoadingMore` is set, the fetch has been issued but has not settled. -/
def cx6State : HookState :=
  (loadMoreStart (loadInitialData initialHookState (.ok wPage0)).1).1

/-- C6 counterexample: with an incremental page load in flight
(`isLoadingMore = true`), `refreshData` still proceeds — it issues a
fetch-page request at `{20, 0}` and mutates the state — because its guard
only checks `isFetchingRef` and `isLoading`, never the page-load or
detail-fetch guards. -/
theorem c6_counterexample :
    cx6State.isLoadingMore = true ∧
    (refreshStart cx6State).2 = some ⟨20, 0⟩ ∧
    (refreshStart cx6State).1 ≠ cx6State := by decide

/-- C6 amended: `refreshData()` is a no-op (no request, no state change)
when an initial/refresh fetch is in flight (`isFetchingRef` set) or the
list-loading flag is set; it does not guard against an in-flight
incremental page load or detail fetch. -/
theorem c6_amended_refresh_guard (s : HookState)
    (h : s.isFetching = true ∨ s.store.isLoading = true) :
    refreshStart s = (s, none) := by
  unfold refreshStart
  rcases h with h | h <;> simp [h]

/-- Hook state with an initial/refresh fetch in flight. -/
def c6State : HookState := { initialHookState with isFetching := true }

theorem c6_amended_refresh_guard_witness :
    (c6State.isFetching = true ∨ c6State.store.isLoading = true) ∧
    refreshStart c6State = (c6State, none) :=
  ⟨Or.inl rfl, c6_amended_refresh_guard c6State (Or.inl rfl)⟩

/-- A follow-up page whose `hasMore` flag is still `true`. -/
def wPageMore : Page := ⟨[⟨4, "charmander", "", "", []⟩], true⟩

/-- A reachable state whose stored cursor is `{20, 40}`: a successful
initial load followed by a successful incremental load. -/
def cx7State : HookState := (loadMoreData c5State (.ok wPageMore)).1

/-- C7 counterexample: running a successful `loadInitialData` from a state
whose stored cursor is `{20, 40}`, the stored cursor is still `{20, 40}`
at the suspension point and `{20, 20}` after success — at no point during
an initial load is the stored pagination cursor reset to `{20, 0}`. -/
theorem c7_counterexample :
    cx7State.store.pagination = ⟨20, 40⟩ ∧
    (loadInitialStart cx7State).1.store.pagination = ⟨20, 40⟩ ∧
    (loadInitialData cx7State (.ok wPageMore)).1.store.pagination = ⟨20, 20⟩ ∧
    (⟨20, 20⟩ : PaginationConfig) ≠ ⟨20, 0⟩ := by decide

/-- C7 amended: initial load and refresh issue their page request at the
reset cursor `{pageSize, 0}` regardless of the stored cursor, and on
success store the cursor `{pageSize, pageSize}` (the reset cursor advanced
by one page); each successful incremental load fetches at the stored
cursor and advances its offset by exactly `pageSize` (= `limit`), leaving
the limit unchanged. -/
theorem c7_amended_cursor (s : HookState) (p : Page)
    (hf : s.isFetching = false) (hl : s.store.isLoading = false)
    (hlm : s.isLoadingMore = false) (hr : s.store.isRefreshing = false)
    (hm : s.store.hasMore = true) :
    ((loadInitialStart s).2 = some ⟨20, 0⟩ ∧
      (loadInitialData s (.ok p)).1.store.pagination = ⟨20, 20⟩) ∧
    ((refreshStart s).2 = some ⟨20, 0⟩ ∧
      (refreshData s (.ok p)).1.store.pagination = ⟨20, 20⟩) ∧
    ((loadMoreStart s).2 = some s.store.pagination ∧
      (loadMoreData s (.ok p)).1.store.pagination =
        ⟨s.store.pagination.limit,
          s.store.pagination.offset + s.store.pagination.limit⟩) := by
  refine ⟨⟨?_, ?_⟩, ⟨?_, ?_⟩, ⟨?_, ?_⟩⟩ <;>
    simp [loadInitialStart, loadInitialData, loadInitialSettle, refreshStart,
      refreshData, refreshSettle, loadMoreStart, loadMoreData, loadMoreSettle,
      hf, hl, hlm, hr, hm, setPokemonList, setHasMore, setPagination,
      setLoading, setRefreshing, setError, resetList]

theorem c7_amended_cursor_witness :
    c5State.isFetching = false ∧ c5State.store.isLoading = false ∧
    c5State.isLoadingMore = false ∧ c5State.store.isRefreshing = false ∧
    c5State.store.hasMore = true ∧
    (((loadInitialStart c5State).2 = some ⟨20, 0⟩ ∧
        (loadInitialData c5State (.ok wPageMore)).1.store.pagination = ⟨20, 20⟩) ∧
      ((refreshStart c5State).2 = some ⟨20, 0⟩ ∧
        (refreshData c5State (.ok wPageMore)).1.store.pagination = ⟨20, 20⟩) ∧
      ((loadMoreStart c5State).2 = some c5State.store.pagination ∧
        (loadMoreData c5State (.ok wPageMore)).1.store.pagination =
          ⟨c5State.store.pagination.limit,
            c5State.store.pagination.offset + c5State.store.pagination.limit⟩)) :=
  ⟨by decide, by decide, by decide, by decide, by decide,
    c7_amended_cursor c5State wPageMore
      (by decide) (by decide) (by decide) (by decide) (by decide)⟩

/-- C8: when `loadInitialData()` actually runs (guard clear) and its page
fetch fails, the error field holds the classified message for that failure
and the accumulated and filtered lists are untouched; and for any outcome,
success or failure, loading is false and the in-flight guard cleared once
the call completes. -/
theorem c8_initial_load_error_handling (s : HookState) (e : ApiError)
    (r : FetchResult) (hf : s.isFetching = false) :
    (loadInitialData s (.error e)).1.store.error = some (getErrorMessage e) ∧
    (loadInitialData s (.error e)).1.store.pokemonList = s.store.pokemonList ∧
    (loadInitialData s (.error e)).1.store.filteredList = s.store.filteredList ∧
    (loadInitialData s r).1.store.isLoading = false ∧
    (loadInitialData s r).1.isFetching = false := by
  refine ⟨?_, ?_, ?_, ?_⟩
  · simp [loadInitialData, loadInitialStart, loadInitialSettle, hf,
      setError, setLoading]
  · simp [loadInitialData, loadInitialStart, loadInitialSettle, hf,
      setError, setLoading]
  · simp [loadInitialData, loadInitialStart, loadInitialSettle, hf,
      setError, setLoading]
  · cases r <;>
      simp [loadInitialData, loadInitialStart, loadInitialSettle, hf,
        setError, setLoading, setPokemonList, setHasMore, setPagination]

theorem c8_initial_load_error_handling_witness :
    initialHookState.isFetching = false ∧
    ((loadInitialData initialHookState (.error (.axios none none))).1.store.error =
        some (getErrorMessage (.axios none none)) ∧
      (loadInitialData initialHookState
            (.error (.axios none none))).1.store.pokemonList =
        initialHookState.store.pokemonList ∧
      (loadInitialData initialHookState
            (.error (.axios none none))).1.store.filteredList =
        initialHookState.store.filteredList ∧
      (loadInitialData initialHookState (.ok wPage0)).1.store.isLoading = false ∧
      (loadInitialData initialHookState (.ok wPage0)).1.isFetching = false) :=
  ⟨rfl, c8_initial_load_error_handling initialHookState (.axios none none)
    (.ok wPage0) rfl⟩

/-- C9: a detail fetch that fails with the not-found classification leaves
the stored detail record `null` (it was `null` on screen entry, and the
failure path never writes it) and sets the detail error to the not-found
message; `resetDetail()` then clears both the stored record and the error
from any state, so re-entering with a different id starts clean. -/
theorem c9_detail_notfound_then_reset (s s2 : StoreState) (e : ApiError)
    (hd : s.selectedPokemon = none)
    (he : getErrorMessage e = "Pokemon not found.") :
    (fetchDetail s (.error e)).selectedPokemon = none ∧
    (fetchDetail s (.error e)).detailError = some "Pokemon not found." ∧
    (fetchDetail s (.error e)).detailLoading = false ∧
    (resetDetail s2).selectedPokemon = none ∧
    (resetDetail s2).detailError = none := by
  simp [fetchDetail, resetDetail, setDetailLoading, setDetailError,
    setSelectedPokemon, hd, he]

theorem c9_detail_notfound_then_reset_witness :
    initialStoreState.selectedPokemon = none ∧
    getErrorMessage (.axios none (some 404)) = "Pokemon not found." ∧
    ((fetchDetail initialStoreState
          (.error (.axios none (some 404)))).selectedPokemon = none ∧
      (fetchDetail initialStoreState
          (.error (.axios none (some 404)))).detailError =
        some "Pokemon not found." ∧
      (fetchDetail initialStoreState
          (.error (.axios none (some 404)))).detailLoading = false ∧
      (resetDetail (fetchDetail initialStoreState
          (.error (.axios none (some 404))))).selectedPokemon = none ∧
      (resetDetail (fetchDetail initialStoreState
          (.error (.axios none (some 404))))).detailError = none) :=
  ⟨rfl, by decide,
    c9_detail_notfound_then_reset initialStoreState
      (fetchDetail initialStoreState (.error (.axios none (some 404))))
      (.axios none (some 404)) rfl (by decide)⟩

theorem filterByQuery_empty_query (l : List Pokemon) : filterByQuery l "" = l := by
  unfold filterByQuery
  simp [lowerStr]

/-- C10: a successful `refreshData()` resets the search term to the empty
string (`resetList` runs before the fresh page is applied), so afterwards
the filtered view equals the full fresh page — even if a non-empty term
was active when the refresh began. -/
theorem c10_refresh_clears_search (s : HookState) (p : Page)
    (hf : s.isFetching = false) (hl : s.store.isLoading = false) :
    (refreshData s (.ok p)).1.store.searchQuery = "" ∧
    (refreshData s (.ok p)).1.store.pokemonList = p.pokemon ∧
    (refreshData s (.ok p)).1.store.filteredList = p.pokemon := by
  unfold refreshData refreshStart
  simp [hf, hl, refreshSettle, resetList, setPokemonList, setHasMore,
    setPagination, setRefreshing, setError, filterByQuery_empty_query]

theorem c10_refresh_clears_search_witness :
    cx4State.isFetching = false ∧ cx4State.store.isLoading = false ∧
    cx4State.store.searchQuery = "pika" ∧
    ((refreshData cx4State (.ok wPage0)).1.store.searchQuery = "" ∧
      (refreshData cx4State (.ok wPage0)).1.store.pokemonList = wPage0.pokemon ∧
      (refreshData cx4State (.ok wPage0)).1.store.filteredList = wPage0.pokemon) :=
  ⟨by decide, by decide, by decide,
    c10_refresh_clears_search cx4State wPage0 (by decide) (by decide)⟩
